import Mathlib

/-!
A verification development of the OSIS passage-extraction engine of
`pythonbible-parser` (`src/pythonbible_parser/osis/parser.py` and
`src/pythonbible_parser/osis/constants.py`), as a shallow embedding.

Conventions of the embedding:
* XML elements are modelled by `Element`; tags are stored with the XML
  namespace already stripped (the value `_strip_namespace_from_tag`
  produces in the source), since every tag comparison in the source goes
  through that helper.
* Python exceptions are modelled by the `Err` type and fallible code
  returns `Except Err _`.
* `pythonbible.Book` is an external enumeration; books are modelled by
  their position in that enumeration (a `Nat`), numbering the entries in
  the order they are listed in `constants.py` (commented-out entries
  included in the numbering, but absent from the table, exactly as in
  the source).
* The recursion of `_get_paragraphs` over the remaining verse-id suffix
  is given explicit fuel; its termination for sufficient fuel is one of
  the proved theorems.
-/

/-- Python exceptions the modelled code can raise. -/
inductive Err where
  /-- `TypeError`, e.g. iterating over `None`. -/
  | typeError
  /-- `AttributeError`, e.g. reading `.text` on `None`. -/
  | attributeError
  /-- `ValueError`, e.g. `tuple.index` on a missing value, `int()` on a
  non-numeric string, or unpacking a split of the wrong length. -/
  | valueError
  /-- `IndexError`, e.g. indexing an empty tuple. -/
  | indexError
  /-- `pythonbible.InvalidBookError`, raised by `get_book_by_id`. -/
  | invalidBook
deriving DecidableEq, Repr

/-- An in-memory parsed XML element, as `xml.etree.ElementTree` exposes
it: a tag (namespace already stripped, see the module comment),
an ordered attribute list, the element text, the child elements in
document order, and the tail text that follows the element. -/
inductive Element where
  | mk (tag : String) (attrs : List (String × String)) (text : Option String)
      (children : List Element) (tail : Option String)

/-- The element's tag. -/
def Element.tagOf : Element → String
  | .mk t _ _ _ _ => t

/-- The element's attribute list. -/
def Element.attrsOf : Element → List (String × String)
  | .mk _ a _ _ _ => a

/-- The element's text (`element.text`). -/
def Element.textOf : Element → Option String
  | .mk _ _ x _ _ => x

/-- The element's children (`list(element)`). -/
def Element.childrenOf : Element → List Element
  | .mk _ _ _ cs _ => cs

/-- The element's tail text (`element.tail`). -/
def Element.tailOf : Element → Option String
  | .mk _ _ _ _ tl => tl

/-- The value of an attribute, if present. -/
def Element.attrValue (e : Element) (key : String) : Option String :=
  (e.attrsOf.find? (fun p => p.1 == key)).map (fun p => p.2)

/-- `element.get(key, default)` from ElementTree: the attribute value,
or the default when the attribute is absent. -/
def Element.attrGetD (e : Element) (key dflt : String) : String :=
  (e.attrValue key).getD dflt

/-- The `BOOK_IDS` table of `osis/constants.py`: canonical book to OSIS
division code.  Books are numbered by their position in the listing of
`constants.py` (the external `pythonbible.Book` enumeration); the
commented-out deuterocanonical entries of the source keep their
position in the numbering but are absent from the table, exactly as in
the source (e.g. 67 = Baruch, 80 = 3 Maccabees have no entry). -/
def BOOK_IDS : List (Nat × String) :=
  [ (1, "Gen"), (2, "Exod"), (3, "Lev"), (4, "Num"), (5, "Deut"),
    (6, "Josh"), (7, "Judg"), (8, "Ruth"), (9, "1Sam"), (10, "2Sam"),
    (11, "1Kgs"), (12, "2Kgs"), (13, "1Chr"), (14, "2Chr"), (15, "Ezra"),
    (16, "Neh"), (17, "Esth"), (18, "Job"), (19, "Ps"), (20, "Prov"),
    (21, "Eccl"), (22, "Song"), (23, "Isa"), (24, "Jer"), (25, "Lam"),
    (26, "Ezek"), (27, "Dan"), (28, "Hos"), (29, "Joel"), (30, "Amos"),
    (31, "Obad"), (32, "Jonah"), (33, "Mic"), (34, "Nah"), (35, "Hab"),
    (36, "Zeph"), (37, "Hag"), (38, "Zech"), (39, "Mal"), (40, "Matt"),
    (41, "Mark"), (42, "Luke"), (43, "John"), (44, "Acts"), (45, "Rom"),
    (46, "1Cor"), (47, "2Cor"), (48, "Gal"), (49, "Eph"), (50, "Phil"),
    (51, "Col"), (52, "1Thess"), (53, "2Thess"), (54, "1Tim"), (55, "2Tim"),
    (56, "Titus"), (57, "Phlm"), (58, "Heb"), (59, "Jas"), (60, "1Pet"),
    (61, "2Pet"), (62, "1John"), (63, "2John"), (64, "3John"), (65, "Jude"),
    (66, "Rev"),
    (73, "1Esd"), (78, "1Macc"), (79, "2Macc"),
    (83, "Sir"), (84, "Tobit"), (85, "Wis") ]

/-- `BOOK_IDS.get(book)`: Python dictionary lookup, `None` on a missing
key (no exception). -/
def BOOK_IDS_get (book : Nat) : Option String :=
  (BOOK_IDS.find? (fun p => p.1 == book)).map (fun p => p.2)

/-- `get_book_by_id` from `osis/constants.py`: linear scan of the table
in insertion order; raises `InvalidBookError` when no entry carries the
given code. -/
def get_book_by_id (book_id : String) : Except Err Nat :=
  match BOOK_IDS.find? (fun p => p.2 == book_id) with
  | some p => .ok p.1
  | none => .error .invalidBook

/-- Modelled from the spec: `pythonbible.get_verse_id` is an external
collaborator supplying a total order over (book, chapter, verse)
triples "represented as a single comparable integer"; the engine relies
only on decomposability and the total order. -/
def get_verse_id (book chapter verse : Nat) : Nat :=
  book * 1000000 + chapter * 1000 + verse

/-- Modelled from the spec: `pythonbible.get_book_chapter_verse`, the
inverse decomposition of `get_verse_id`. -/
def get_book_chapter_verse (verse_id : Nat) : Nat × Nat × Nat :=
  (verse_id / 1000000, verse_id % 1000000 / 1000, verse_id % 1000)

/-- Python `str.format` renders `None` as the string `"None"`; this is
what happens when `BOOK_IDS.get(book)` misses and the result is
interpolated into an XPath template. -/
def pyFormatOpt : Option String → String
  | some s => s
  | none => "None"

/-- Python `str.replace` on character lists: replace every
non-overlapping occurrence of `pat`, scanning left to right.  The fuel
is structural recursion bookkeeping only; callers pass the length of
the scanned list, which is always enough because every step consumes at
least one character. -/
def pyReplaceAux (pat rep : List Char) : Nat → List Char → List Char
  | _, [] => []
  | 0, s => s
  | fuel + 1, c :: rest =>
    if pat.length != 0 && pat.isPrefixOf (c :: rest) then
      rep ++ pyReplaceAux pat rep fuel ((c :: rest).drop pat.length)
    else
      c :: pyReplaceAux pat rep fuel rest

/-- Python `str.replace` (with a non-empty pattern, the only use in the
source). -/
def pyReplace (s pat rep : String) : String :=
  ⟨pyReplaceAux pat.data rep.data s.data.length s.data⟩

/-- Python `str.split(sep)` on character lists, `sep` non-empty:
adjacent separators yield empty segments, and the empty string splits
to one empty segment.  Fuel as in `pyReplaceAux`. -/
def pySplitOnAux (sep : List Char) : Nat → List Char → List Char → List String
  | _, acc, [] => [⟨acc.reverse⟩]
  | 0, acc, s => [⟨acc.reverse ++ s⟩]
  | fuel + 1, acc, c :: rest =>
    if sep.length != 0 && sep.isPrefixOf (c :: rest) then
      (⟨acc.reverse⟩ : String)
        :: pySplitOnAux sep fuel [] ((c :: rest).drop sep.length)
    else
      pySplitOnAux sep fuel (c :: acc) rest

/-- Python `str.split(sep)` with a non-empty separator. -/
def pySplitOn (s sep : String) : List String :=
  pySplitOnAux sep.data s.data.length [] s.data

/-- Python `int(s)` for the strings the documents carry: a non-empty
run of decimal digits; anything else raises `ValueError`, modelled as
`none`. -/
def pyToNat? (s : String) : Option Nat :=
  if s.data.length != 0 && s.data.all Char.isDigit then
    some (s.data.foldl (fun acc c => acc * 10 + (c.toNat - 48)) 0)
  else none

/-- The whitespace set of Python `str.strip()`. -/
def pyIsSpace (c : Char) : Bool :=
  c == ' ' || c == '\t' || c == '\n' || c == '\r' || c == '\x0b' || c == '\x0c'

/-- Python `str.strip()`: drop leading and trailing whitespace. -/
def pyStrip (s : String) : String :=
  ⟨((s.data.dropWhile pyIsSpace).reverse.dropWhile pyIsSpace).reverse⟩

/-- Python `str.endswith`. -/
def pyEndsWith (s sfx : String) : Bool :=
  sfx.data.isSuffixOf s.data

/-- `_get_element_text`: the element's text with newlines replaced by
spaces, or the empty string when the text is absent. -/
def _get_element_text (element : Element) : String :=
  match element.textOf with
  | some t => pyReplace t "\n" " "
  | none => ""

/-- `_get_element_tail`: the element's tail text with newlines replaced
by spaces, or the empty string when the tail is absent. -/
def _get_element_tail (element : Element) : String :=
  match element.tailOf with
  | some t => pyReplace t "\n" " "
  | none => ""

/-- `_get_element_text_and_tail`. -/
def _get_element_text_and_tail (element : Element) : String :=
  _get_element_text element ++ _get_element_tail element

/-- `clean_paragraph`: strip the paragraph-break marker, collapse
doubled spaces, trim surrounding whitespace. -/
def clean_paragraph (paragraph : String) : String :=
  pyStrip (pyReplace (pyReplace paragraph "¶" "") "  " " ")

/-- The gap test of `_handle_verse_tag`:
`current_verse_id is not None and verse_id > current_verse_id + 1`. -/
def verse_gap (verse_id : Nat) (current_verse_id : Option Nat) : Bool :=
  match current_verse_id with
  | some c => decide (verse_id > c + 1)
  | none => false

/-- `_handle_verse_tag`: decode the `osisID` attribute (placeholder
`".."` when absent); a placeholder contributes nothing and leaves the
state alone; a decoded id in the requested set contributes an optional
gap ellipsis, an optional verse-number label, then the element's text
and tail, clears the skipping flag and advances the current id; a
decoded id outside the requested set contributes nothing and sets the
skipping flag. -/
def _handle_verse_tag (child_element : Element) (verse_ids : List Nat)
    (skip_till_next_verse : Bool) (current_verse_id : Option Nat)
    (include_verse_number : Bool) : Except Err (String × Bool × Option Nat) :=
  let osis_id : String := child_element.attrGetD "osisID" ".."
  if osis_id == ".." then
    .ok ("", skip_till_next_verse, current_verse_id)
  else
    match pySplitOn osis_id "." with
    | [book_id, chapter, verse] =>
      match get_book_by_id book_id with
      | .error e => .error e
      | .ok book =>
        match pyToNat? chapter, pyToNat? verse with
        | some chapterN, some verseN =>
          let verse_id : Nat := get_verse_id book chapterN verseN
          if verse_id ∈ verse_ids then
            let paragraph : String :=
              (if skip_till_next_verse && verse_gap verse_id current_verse_id
                then "... " else "")
              ++ (if include_verse_number then verse ++ ". " else "")
              ++ _get_element_text_and_tail child_element
            .ok (paragraph, false, some verse_id)
          else
            .ok ("", true, current_verse_id)
        | _, _ => .error .valueError
    | _ => .error .valueError

mutual

/-- `_handle_child_element`: dispatch on the (namespace-stripped) tag:
verse boundaries go to `_handle_verse_tag`; while skipping everything
else contributes nothing; `rdg` contributes its text; any other tag
inside a note contributes nothing; `w`/`transChange` contribute text
and tail; every remaining tag descends into its children (prefixing its
own text and tail when it is a `q`, appending its tail when it is a
`seg`) and cleans the concatenation. -/
def _handle_child_element (child_element : Element) (verse_ids : List Nat)
    (skip_till_next_verse : Bool) (current_verse_id : Option Nat)
    (include_verse_number : Bool) (inside_note : Bool) :
    Except Err (String × Bool × Option Nat) :=
  match child_element with
  | .mk tag _ _ children _ =>
    if tag == "verse" then
      _handle_verse_tag child_element verse_ids skip_till_next_verse
        current_verse_id include_verse_number
    else if skip_till_next_verse then
      .ok ("", skip_till_next_verse, current_verse_id)
    else if tag == "rdg" then
      .ok (_get_element_text child_element, skip_till_next_verse,
        current_verse_id)
    else if inside_note then
      .ok ("", skip_till_next_verse, current_verse_id)
    else if tag == "w" || tag == "transChange" then
      .ok (_get_element_text_and_tail child_element, skip_till_next_verse,
        current_verse_id)
    else
      let paragraph0 : String :=
        if tag == "q" then _get_element_text_and_tail child_element else ""
      match _handle_grandchildren children verse_ids skip_till_next_verse
          current_verse_id include_verse_number (tag == "note")
          current_verse_id with
      | .error e => .error e
      | .ok (child_parts, skip2, new_current_verse_id) =>
        let paragraph1 := paragraph0 ++ child_parts
        let paragraph2 :=
          if tag == "seg" then paragraph1 ++ _get_element_tail child_element
          else paragraph1
        .ok (clean_paragraph paragraph2, skip2, new_current_verse_id)

/-- The `for grandchild_element in list(child_element)` loop of
`_handle_child_element`: contributions are appended directly (no
separator); the skipping flag is threaded from one grandchild to the
next, but each grandchild receives the original `current_verse_id` of
the enclosing call, and `new_current_verse_id` is overwritten by each
grandchild's result (the last one wins), as in the source. -/
def _handle_grandchildren (grandchildren : List Element) (verse_ids : List Nat)
    (skip_till_next_verse : Bool) (current_verse_id : Option Nat)
    (include_verse_number : Bool) (inside_note : Bool)
    (new_current_verse_id : Option Nat) :
    Except Err (String × Bool × Option Nat) :=
  match grandchildren with
  | [] => .ok ("", skip_till_next_verse, new_current_verse_id)
  | g :: rest =>
    match _handle_child_element g verse_ids skip_till_next_verse
        current_verse_id include_verse_number inside_note with
    | .error e => .error e
    | .ok (gp, skip2, cur2) =>
      match _handle_grandchildren rest verse_ids skip2 current_verse_id
          include_verse_number inside_note cur2 with
      | .error e => .error e
      | .ok (restp, skip3, cur3) => .ok (gp ++ restp, skip3, cur3)

end

/-- The space-insertion rule of the `_get_paragraph_from_element` loop:
an empty contribution is dropped; otherwise a single space is inserted
before it when the accumulated paragraph is non-empty and does not
already end in a space. -/
def join_contribution (paragraph child_paragraph : String) : String :=
  if child_paragraph.length == 0 then paragraph
  else
    (if paragraph.length > 0 && !(pyEndsWith paragraph " ")
      then paragraph ++ " " else paragraph)
    ++ child_paragraph

/-- The `for child_element in list(paragraph_element)` loop of
`_get_paragraph_from_element`: state (skipping flag and current verse
id) is threaded from child to child, and contributions are joined by
`join_contribution`. -/
def _paragraph_loop (children : List Element) (verse_ids : List Nat)
    (skip_till_next_verse : Bool) (new_current_verse_id : Option Nat)
    (include_verse_number : Bool) (paragraph : String) :
    Except Err (String × Option Nat) :=
  match children with
  | [] => .ok (paragraph, new_current_verse_id)
  | child_element :: rest =>
    match _handle_child_element child_element verse_ids skip_till_next_verse
        new_current_verse_id include_verse_number false with
    | .error e => .error e
    | .ok (child_paragraph, skip2, cur2) =>
      _paragraph_loop rest verse_ids skip2 cur2 include_verse_number
        (join_contribution paragraph child_paragraph)

/-- `_get_paragraph_from_element`.  The argument is an `Option` because
the caller passes the raw result of `tree.find`, which is `None` when
no element matched; iterating `list(None)` raises `TypeError`. -/
def _get_paragraph_from_element (paragraph_element : Option Element)
    (verse_ids : List Nat) (current_verse_id : Nat)
    (include_verse_number : Bool) : Except Err (List String × Option Nat) :=
  match paragraph_element with
  | none => .error .typeError
  | some pe =>
    match _paragraph_loop pe.childrenOf verse_ids false (some current_verse_id)
        include_verse_number "" with
    | .error e => .error e
    | .ok (paragraph, new_current_verse_id) =>
      .ok ([clean_paragraph paragraph], new_current_verse_id)

mutual

/-- `tree.find(XPATH_VERSE_PARENT.format(code, chapter, verse))`: the
first element, in document (preorder) order, having a direct child
whose tag is `verse` and whose `osisID` attribute equals the composite
id; `none` when there is no such element. -/
def findVerseParent (e : Element) (osis : String) : Option Element :=
  match e with
  | .mk _ _ _ children _ =>
    if children.any (fun c =>
        c.tagOf == "verse" && c.attrValue "osisID" == some osis) then
      some e
    else
      findVerseParentList children osis

/-- `findVerseParent` over a list of elements, first hit wins. -/
def findVerseParentList (es : List Element) (osis : String) : Option Element :=
  match es with
  | [] => none
  | c :: rest =>
    match findVerseParent c osis with
    | some r => some r
    | none => findVerseParentList rest osis

end

mutual

/-- `tree.find(XPATH_BOOK_TITLE.format(code))`: the first `title` child
of a `div` whose `osisID` attribute equals the code, searching the tree
in document order; `none` when there is no such element. -/
def findTitleInElement (e : Element) (code : String) : Option Element :=
  match e with
  | .mk tag attrs _ children _ =>
    match (if tag == "div" &&
          ((attrs.find? (fun p => p.1 == "osisID")).map (fun p => p.2)
            == some code) then
        children.find? (fun c => c.tagOf == "title")
      else none) with
    | some t => some t
    | none => findTitleInElementList children code

/-- `findTitleInElement` over a list of elements, first hit wins. -/
def findTitleInElementList (es : List Element) (code : String) :
    Option Element :=
  match es with
  | [] => none
  | c :: rest =>
    match findTitleInElement c code with
    | some r => some r
    | none => findTitleInElementList rest code

end

/-- `_get_book_title_element`: `BOOK_IDS.get(book)` (possibly `None`,
formatted into the XPath as the string `"None"`) and the title search;
`none` models the `None` that `tree.find` returns when nothing
matches. -/
def _get_book_title_element (tree : Element) (book : Nat) : Option Element :=
  findTitleInElement tree (pyFormatOpt (BOOK_IDS_get book))

/-- `get_book_title`: `book_title_element.text or ""`.  When the title
element is absent, `tree.find` returned `None` and reading `.text` on
it raises `AttributeError`. -/
def get_book_title (tree : Element) (book : Nat) : Except Err String :=
  match _get_book_title_element tree book with
  | none => .error .attributeError
  | some e => .ok ((e.textOf).getD "")

/-- `get_short_book_title`: `book_title_element.get("short", "")`, with
the same `AttributeError` on an absent title element. -/
def get_short_book_title (tree : Element) (book : Nat) : Except Err String :=
  match _get_book_title_element tree book with
  | none => .error .attributeError
  | some e => .ok (e.attrGetD "short" "")

/-- The result shape of `_get_paragraphs`: book number to chapter number
to paragraph strings, as insertion-ordered dictionaries modelled by
association lists. -/
abbrev PassageResult := List (Nat × List (Nat × List String))

/-- The composite id `{BOOK_IDS.get(book)}.{chapter}.{verse}` that
`_get_paragraphs` interpolates into `XPATH_VERSE_PARENT` for a verse
id: a missing book code is formatted as `"None"`. -/
def composite_osis_id (verse_id : Nat) : String :=
  pyFormatOpt (BOOK_IDS_get (get_book_chapter_verse verse_id).1) ++ "."
    ++ toString (get_book_chapter_verse verse_id).2.1 ++ "."
    ++ toString (get_book_chapter_verse verse_id).2.2

/-- `d.get(k, default)` (the value part) on an insertion-ordered
dictionary modelled as an association list. -/
def dictGet {α : Type} (l : List (Nat × α)) (k : Nat) : Option α :=
  (l.find? (fun p => p.1 == k)).map (fun p => p.2)

/-- `d[k] = v` on an insertion-ordered dictionary: replace the value in
place when the key is present, append otherwise. -/
def dictSet {α : Type} (l : List (Nat × α)) (k : Nat) (v : α) :
    List (Nat × α) :=
  match l with
  | [] => [(k, v)]
  | p :: rest => if p.1 == k then (k, v) :: rest else p :: dictSet rest k v

/-- `_get_paragraphs`, with explicit fuel for its recursion on the
remaining verse-id suffix (the element-tree traversal itself is
structural and needs no fuel).  `none` is returned only when the fuel
runs out; whether the listed fuel ever runs out is the subject of claim
C10.  Each step decodes the first remaining id, resolves the book code
(`None` formatted as `"None"` on a miss, as in Python), locates the
paragraph element that is the parent of the matching verse boundary,
extracts that paragraph, finds the index of the consumed id in the
tuple (`ValueError` when absent), recurses on the remainder, and merges
the same-book/same-chapter paragraph lists. -/
def _get_paragraphsF : Nat → Element → List Nat → Bool →
    Option (Except Err PassageResult)
  | 0, _, _, _ => none
  | fuel + 1, tree, verse_ids, include_verse_number =>
    match verse_ids with
    | [] => some (.error .indexError)
    | current0 :: _ =>
      let bcv := get_book_chapter_verse current0
      let paragraph_element := findVerseParent tree (composite_osis_id current0)
      match _get_paragraph_from_element paragraph_element verse_ids current0
          include_verse_number with
      | .error e => some (.error e)
      | .ok (paragraphs, newCurOpt) =>
        match newCurOpt with
        | none => some (.error .valueError)
        | some current_verse_id =>
          match verse_ids.findIdx? (fun x => x == current_verse_id) with
          | none => some (.error .valueError)
          | some idx =>
            let current_verse_index := idx + 1
            match (if current_verse_index < verse_ids.length then
                _get_paragraphsF fuel tree (verse_ids.drop current_verse_index)
                  include_verse_number
              else some (.ok [])) with
            | none => none
            | some (.error e) => some (.error e)
            | some (.ok paragraph_dictionary) =>
              let book_dictionary :=
                (dictGet paragraph_dictionary bcv.1).getD []
              let chapter_list := (dictGet book_dictionary bcv.2.1).getD []
              let paragraphs2 := paragraphs ++ chapter_list
              let book_dictionary2 := dictSet book_dictionary bcv.2.1 paragraphs2
              some (.ok (dictSet paragraph_dictionary bcv.1 book_dictionary2))

/-- Modelled from the spec: `sort_paragraphs` (from `bible_parser`, not
under `src/`) canonically orders books and chapters ascending,
preserving each chapter's paragraph list. -/
def sort_paragraphs (pd : PassageResult) : PassageResult :=
  (pd.insertionSort (fun a b => a.1 ≤ b.1)).map
    (fun bk => (bk.1, bk.2.insertionSort (fun a b => a.1 ≤ b.1)))

/-- `get_scripture_passage_text`.  The first component of the result is
the caller's `verse_ids` list as it stands after the call: the source
sorts the caller's list in place (`verse_ids.sort()`) before converting
it to a tuple, except that an empty list returns early, before the
sort.  The memoization layer is semantically the identity (the function
is pure), so it is not modelled.  The fuel given to `_get_paragraphsF`
is the length of the id list, which claim C10 shows sufficient. -/
def get_scripture_passage_text (tree : Element) (verse_ids : List Nat)
    (include_verse_number : Bool) :
    List Nat × Option (Except Err PassageResult) :=
  if verse_ids.isEmpty then (verse_ids, some (.ok []))
  else
    let sorted := verse_ids.insertionSort (fun a b => a ≤ b)
    (sorted,
      (_get_paragraphsF sorted.length tree sorted include_verse_number).map
        (fun r => r.map sort_paragraphs))

/-- A verse-boundary element with the given composite id, text and
tail. -/
def verseEl (osis : String) (txt tl : Option String) : Element :=
  .mk "verse" [("osisID", osis)] txt [] tl

/-- A word-level element with the given text. -/
def wEl (txt : String) : Element :=
  .mk "w" [] (some txt) [] none

/-- A document with no verse boundaries at all. -/
def emptyTree : Element := .mk "osis" [] none [] none

/-- A document whose Genesis division has no title element. -/
def titleTree0 : Element :=
  .mk "osis" [] none [.mk "div" [("osisID", "Gen")] none [] none] none

/-- A document whose Genesis division has a title element carrying
neither text nor a `short` attribute. -/
def titleTree1 : Element :=
  .mk "osis" [] none
    [.mk "div" [("osisID", "Gen")] none [.mk "title" [] none [] none] none]
    none

/-- A generic (unrecognized-tag) element with two word children. -/
def genericTwo : Element := .mk "p" [] none [wEl "a", wEl "b"] none

/-- A variant-reading element with text `"alt"`. -/
def rdgEx : Element := .mk "rdg" [] (some "alt") [] none

/-- A footnote whose body holds a variant reading and a requested
verse boundary. -/
def noteEx : Element :=
  .mk "note" [] (some "IGNORED") [rdgEx, verseEl "Gen.1.1" (some "vtext") none]
    none

/-- A verse boundary carrying no attributes at all. -/
def bareVerse : Element := .mk "verse" [] (some "txt") [] none

/-- C7: a verse-boundary element whose id attribute is absent or equal
to the placeholder `".."` contributes the empty string and leaves both
traversal-state components unchanged: the skipping flag and the current
verse identifier are returned exactly as passed in. -/
theorem claim_C7_placeholder_boundary_is_identity
    (child_element : Element) (verse_ids : List Nat) (skip : Bool)
    (cur : Option Nat) (incl : Bool)
    (h : child_element.attrGetD "osisID" ".." = "..") :
    _handle_verse_tag child_element verse_ids skip cur incl =
      .ok ("", skip, cur) := by
  unfold _handle_verse_tag
  simp [h]

/-- C7 witness: a boundary with no id attribute, with the flag set and
a current id present, is returned untouched. -/
theorem claim_C7_witness :
    _handle_verse_tag bareVerse [1001001] true (some 5) true =
      .ok ("", true, some 5) :=
  claim_C7_placeholder_boundary_is_identity bareVerse [1001001] true (some 5)
    true rfl

/-- C1: for every requested set, both flag values and any incoming
state, a verse boundary whose id decodes to a member of the requested
set contributes its text and tail (behind an optional ellipsis/number
label), clears the skipping flag and advances the current id to the
decoded id; a boundary whose id decodes to a non-member contributes the
empty string, sets the skipping flag and leaves the current id alone;
and while the skipping flag is set every non-verse element contributes
nothing through `_handle_child_element`, so following prose is
suppressed until the next requested boundary. -/
theorem claim_C1_inclusion_iff_requested
    (child_element : Element) (verse_ids : List Nat) (skip : Bool)
    (cur : Option Nat) (incl : Bool)
    (osis book_id chapter verse : String) (book chapterN verseN : Nat)
    (hosis : child_element.attrGetD "osisID" ".." = osis)
    (hne : osis ≠ "..")
    (hsplit : pySplitOn osis "." = [book_id, chapter, verse])
    (hbook : get_book_by_id book_id = .ok book)
    (hch : pyToNat? chapter = some chapterN)
    (hvs : pyToNat? verse = some verseN) :
    (get_verse_id book chapterN verseN ∈ verse_ids →
      ∃ label,
        _handle_verse_tag child_element verse_ids skip cur incl =
          .ok (label ++ _get_element_text_and_tail child_element, false,
            some (get_verse_id book chapterN verseN)))
    ∧ (get_verse_id book chapterN verseN ∉ verse_ids →
      _handle_verse_tag child_element verse_ids skip cur incl =
        .ok ("", true, cur))
    ∧ (∀ prose : Element, prose.tagOf ≠ "verse" → ∀ inote : Bool,
      _handle_child_element prose verse_ids true cur incl inote =
        .ok ("", true, cur)) := by
  refine ⟨?_, ?_, ?_⟩
  · intro hmem
    refine ⟨(if skip && verse_gap (get_verse_id book chapterN verseN) cur
        then "... " else "")
      ++ (if incl then verse ++ ". " else ""), ?_⟩
    unfold _handle_verse_tag
    simp [hosis, hne, hsplit, hbook, hch, hvs, hmem]
  · intro hmem
    unfold _handle_verse_tag
    simp [hosis, hne, hsplit, hbook, hch, hvs, hmem]
  · intro prose hp inote
    cases prose with
    | mk t a x cs tl =>
      have ht : (t == "verse") = false := by
        simpa [Element.tagOf] using hp
      unfold _handle_child_element
      simp [ht]

/-- C1 witness: the hypotheses hold for a concrete requested boundary
`Gen.1.2`. -/
theorem claim_C1_witness :
    (get_verse_id 1 1 2 ∈ [1001002] →
      ∃ label,
        _handle_verse_tag (verseEl "Gen.1.2" (some "t") (some "!"))
            [1001002] false (some 1001001) true =
          .ok (label
            ++ _get_element_text_and_tail
              (verseEl "Gen.1.2" (some "t") (some "!")), false,
            some (get_verse_id 1 1 2)))
    ∧ (get_verse_id 1 1 2 ∉ [1001002] →
      _handle_verse_tag (verseEl "Gen.1.2" (some "t") (some "!"))
          [1001002] false (some 1001001) true =
        .ok ("", true, some 1001001))
    ∧ (∀ prose : Element, prose.tagOf ≠ "verse" → ∀ inote : Bool,
      _handle_child_element prose [1001002] true (some 1001001) true inote =
        .ok ("", true, some 1001001)) :=
  claim_C1_inclusion_iff_requested (verseEl "Gen.1.2" (some "t") (some "!"))
    [1001002] false (some 1001001) true "Gen.1.2" "Gen" "1" "2" 1 1 2
    rfl (by decide) rfl rfl rfl rfl

/-- C5: for a requested boundary, the ellipsis marker `"... "` is
prefixed to its contribution exactly when the skipping flag is set on
arrival and the decoded id exceeds the current id by more than one
(the `verse_gap` test); with the flag clear there is no ellipsis; when
the decoded id does not exceed the current id by more than one — in
particular for an adjacent id — there is no ellipsis; and when the
matched id is the first requested id of the call (the head of the
sorted list, which never exceeds the current id) there is no
ellipsis. -/
theorem claim_C5_gap_ellipsis
    (child_element : Element) (verse_ids : List Nat) (skip : Bool)
    (cur : Option Nat) (incl : Bool)
    (osis book_id chapter verse : String) (book chapterN verseN : Nat)
    (hosis : child_element.attrGetD "osisID" ".." = osis)
    (hne : osis ≠ "..")
    (hsplit : pySplitOn osis "." = [book_id, chapter, verse])
    (hbook : get_book_by_id book_id = .ok book)
    (hch : pyToNat? chapter = some chapterN)
    (hvs : pyToNat? verse = some verseN)
    (hmem : get_verse_id book chapterN verseN ∈ verse_ids) :
    (_handle_verse_tag child_element verse_ids skip cur incl =
      .ok ((if skip && verse_gap (get_verse_id book chapterN verseN) cur
          then "... " else "")
        ++ (if incl then verse ++ ". " else "")
        ++ _get_element_text_and_tail child_element, false,
        some (get_verse_id book chapterN verseN)))
    ∧ (skip = false →
      _handle_verse_tag child_element verse_ids skip cur incl =
        .ok ((if incl then verse ++ ". " else "")
          ++ _get_element_text_and_tail child_element, false,
          some (get_verse_id book chapterN verseN)))
    ∧ (∀ c : Nat, cur = some c → get_verse_id book chapterN verseN ≤ c + 1 →
      _handle_verse_tag child_element verse_ids skip cur incl =
        .ok ((if incl then verse ++ ". " else "")
          ++ _get_element_text_and_tail child_element, false,
          some (get_verse_id book chapterN verseN)))
    ∧ (∀ c v1 : Nat, cur = some c → verse_ids.head? = some v1 → v1 ≤ c →
      get_verse_id book chapterN verseN = v1 →
      _handle_verse_tag child_element verse_ids skip cur incl =
        .ok ((if incl then verse ++ ". " else "")
          ++ _get_element_text_and_tail child_element, false,
          some (get_verse_id book chapterN verseN))) := by
  have main : _handle_verse_tag child_element verse_ids skip cur incl =
      .ok ((if skip && verse_gap (get_verse_id book chapterN verseN) cur
          then "... " else "")
        ++ (if incl then verse ++ ". " else "")
        ++ _get_element_text_and_tail child_element, false,
        some (get_verse_id book chapterN verseN)) := by
    unfold _handle_verse_tag
    simp [hosis, hne, hsplit, hbook, hch, hvs, hmem]
  refine ⟨main, ?_, ?_, ?_⟩
  · intro hskip
    rw [main, hskip]
    simp [String.empty_append]
  · intro c hcur hle
    have hgap : verse_gap (get_verse_id book chapterN verseN) cur = false := by
      simp [verse_gap, hcur]
      omega
    rw [main, hgap]
    simp [String.empty_append]
  · intro c v1 hcur hhead hc1 hv1
    have hgap : verse_gap (get_verse_id book chapterN verseN) cur = false := by
      simp [verse_gap, hcur, hv1]
      omega
    rw [main, hgap]
    simp [String.empty_append]

/-- C5 witness: the hypotheses hold for the concrete boundary
`Gen.1.3` requested together with `Gen.1.1`, arriving with the
skipping flag set. -/
theorem claim_C5_witness :
    (_handle_verse_tag (verseEl "Gen.1.3" (some "x") none)
        [1001001, 1001003] true (some 1001001) true =
      .ok ((if true && verse_gap (get_verse_id 1 1 3) (some 1001001)
          then "... " else "")
        ++ (if true then "3" ++ ". " else "")
        ++ _get_element_text_and_tail (verseEl "Gen.1.3" (some "x") none),
        false, some (get_verse_id 1 1 3)))
    ∧ (true = false →
      _handle_verse_tag (verseEl "Gen.1.3" (some "x") none)
          [1001001, 1001003] true (some 1001001) true =
        .ok ((if true then "3" ++ ". " else "")
          ++ _get_element_text_and_tail (verseEl "Gen.1.3" (some "x") none),
          false, some (get_verse_id 1 1 3)))
    ∧ (∀ c : Nat, some 1001001 = some c → get_verse_id 1 1 3 ≤ c + 1 →
      _handle_verse_tag (verseEl "Gen.1.3" (some "x") none)
          [1001001, 1001003] true (some 1001001) true =
        .ok ((if true then "3" ++ ". " else "")
          ++ _get_element_text_and_tail (verseEl "Gen.1.3" (some "x") none),
          false, some (get_verse_id 1 1 3)))
    ∧ (∀ c v1 : Nat, some 1001001 = some c →
      ([1001001, 1001003] : List Nat).head? = some v1 → v1 ≤ c →
      get_verse_id 1 1 3 = v1 →
      _handle_verse_tag (verseEl "Gen.1.3" (some "x") none)
          [1001001, 1001003] true (some 1001001) true =
        .ok ((if true then "3" ++ ". " else "")
          ++ _get_element_text_and_tail (verseEl "Gen.1.3" (some "x") none),
          false, some (get_verse_id 1 1 3))) :=
  claim_C5_gap_ellipsis (verseEl "Gen.1.3" (some "x") none)
    [1001001, 1001003] true (some 1001001) true "Gen.1.3" "Gen" "1" "3" 1 1 3
    rfl (by decide) rfl rfl rfl rfl (by decide)

/-- A string has length zero exactly when it is empty. -/
theorem string_length_eq_zero_iff (s : String) : s.length = 0 ↔ s = "" := by
  constructor
  · intro h
    cases s with
    | mk data =>
      cases data with
      | nil => rfl
      | cons c cs => simp [String.length] at h
  · intro h
    subst h
    rfl

/-- C6 counterexample: a generic element (tag `p`, no recognized
structural role) with two word children contributing `"a"` and `"b"`,
processed outside suppression, yields `"ab"` — the children's
contributions are concatenated with no separator, while the claim
predicts a single space between the two non-empty contributions
(`"a b"`). -/
theorem claim_C6_counterexample :
    _handle_child_element genericTwo [1] false (some 1) false false =
      .ok ("ab", false, some 1) ∧ "ab" ≠ "a b" :=
  ⟨rfl, by decide⟩

/-- C6 amended: a generic element concatenates its children's
contributions in document order directly, with no separator (then
cleans the result); the single-space rule the claim describes lives one
level up, where `_get_paragraph_from_element` joins the contributions
of the paragraph's direct children: there an empty contribution is
dropped, and a non-empty one is appended after a single inserted space
unless the accumulated paragraph is empty or already ends in a
space. -/
theorem claim_C6_amended_generic_concatenation
    (verse_ids : List Nat) (cur : Option Nat) (incl : Bool) :
    (∀ (tag : String) (attrs : List (String × String))
        (txt tl : Option String) (children : List Element)
        (p : String) (s : Bool) (c : Option Nat),
      tag ∉ ["verse", "rdg", "w", "transChange", "q", "seg", "note"] →
      _handle_grandchildren children verse_ids false cur incl false cur =
        .ok (p, s, c) →
      _handle_child_element (.mk tag attrs txt children tl) verse_ids false
        cur incl false = .ok (clean_paragraph p, s, c))
    ∧ (∀ (g : Element) (rest : List Element) (skip : Bool) (inote : Bool)
        (acc : Option Nat) (p1 : String) (s1 : Bool) (c1 : Option Nat)
        (p2 : String) (s2 : Bool) (c2 : Option Nat),
      _handle_child_element g verse_ids skip cur incl inote = .ok (p1, s1, c1) →
      _handle_grandchildren rest verse_ids s1 cur incl inote c1 =
        .ok (p2, s2, c2) →
      _handle_grandchildren (g :: rest) verse_ids skip cur incl inote acc =
        .ok (p1 ++ p2, s2, c2))
    ∧ (∀ (child_element : Element) (rest : List Element) (skip : Bool)
        (cur0 : Option Nat) (pacc cp : String) (s2 : Bool) (c2 : Option Nat),
      _handle_child_element child_element verse_ids skip cur0 incl false =
        .ok (cp, s2, c2) →
      _paragraph_loop (child_element :: rest) verse_ids skip cur0 incl pacc =
        _paragraph_loop rest verse_ids s2 c2 incl
          (join_contribution pacc cp))
    ∧ (∀ paragraph child_paragraph : String, child_paragraph ≠ "" →
      paragraph ≠ "" → pyEndsWith paragraph " " = false →
      join_contribution paragraph child_paragraph =
        paragraph ++ " " ++ child_paragraph)
    ∧ (∀ child_paragraph : String, child_paragraph ≠ "" →
      ∀ paragraph : String, paragraph = "" ∨ pyEndsWith paragraph " " = true →
      join_contribution paragraph child_paragraph =
        paragraph ++ child_paragraph)
    ∧ (∀ paragraph : String, join_contribution paragraph "" = paragraph) := by
  refine ⟨?_, ?_, ?_, ?_, ?_, ?_⟩
  · intro tag attrs txt tl children p s c hgen hgc
    simp only [List.mem_cons, List.mem_singleton, not_or] at hgen
    obtain ⟨h1, h2, h3, h4, h5, h6, h7, -⟩ := hgen
    have hn : (tag == "note") = false := beq_eq_false_iff_ne.mpr h7
    unfold _handle_child_element
    simp [beq_iff_eq, h1, h2, h3, h4, h5, h6, h7, hn, hgc,
      String.empty_append]
  · intro g rest skip inote acc p1 s1 c1 p2 s2 c2 hg hrest
    unfold _handle_grandchildren
    simp [hg, hrest]
  · intro child_element rest skip cur0 pacc cp s2 c2 hc
    simp only [_paragraph_loop, hc]
  · intro paragraph child_paragraph hcp hp hend
    have hl : (child_paragraph.length == 0) = false := by
      simp [string_length_eq_zero_iff, hcp]
    have hpl : paragraph.length > 0 := by
      rcases Nat.eq_zero_or_pos paragraph.length with hq | hq
      · exact absurd ((string_length_eq_zero_iff paragraph).mp hq) hp
      · exact hq
    simp [join_contribution, hl, hpl, hend, String.append_assoc]
  · intro child_paragraph hcp paragraph hor
    have hl : (child_paragraph.length == 0) = false := by
      simp [string_length_eq_zero_iff, hcp]
    rcases hor with hemp | hend
    · subst hemp
      simp [join_contribution, hl]
    · simp [join_contribution, hl, hend]
  · intro paragraph
    simp [join_contribution]

/-- C6 amended witness: each part of the amended statement, applied at
concrete inputs. -/
theorem claim_C6_amended_witness :
    _handle_child_element genericTwo [1] false (some 1) false false =
      .ok (clean_paragraph "ab", false, some 1)
    ∧ _handle_grandchildren [wEl "a", wEl "b"] [1] false (some 1) false false
        (some 1) = .ok ("a" ++ "b", false, some 1)
    ∧ _paragraph_loop [wEl "a"] [1] false (some 1) false "" =
        _paragraph_loop [] [1] false (some 1) false (join_contribution "" "a")
    ∧ join_contribution "x" "y" = "x" ++ " " ++ "y"
    ∧ join_contribution "x " "y" = "x " ++ "y"
    ∧ join_contribution "x" "" = "x" :=
  ⟨(claim_C6_amended_generic_concatenation [1] (some 1) false).1
      "p" [] none none [wEl "a", wEl "b"] "ab" false (some 1)
      (by decide) rfl,
   (claim_C6_amended_generic_concatenation [1] (some 1) false).2.1
      (wEl "a") [wEl "b"] false false (some 1) "a" false (some 1) "b" false
      (some 1) rfl rfl,
   (claim_C6_amended_generic_concatenation [1] (some 1) false).2.2.1
      (wEl "a") [] false (some 1) "" "a" false (some 1) rfl,
   (claim_C6_amended_generic_concatenation [1] (some 1) false).2.2.2.1
      "x" "y" (by decide) (by decide) rfl,
   (claim_C6_amended_generic_concatenation [1] (some 1) false).2.2.2.2.1
      "y" (by decide) "x " (Or.inr rfl),
   (claim_C6_amended_generic_concatenation [1] (some 1) false).2.2.2.2.2
      "x"⟩

/-- C8 counterexample: a footnote processed outside suppression whose
body holds a variant reading (`"alt"`) and a requested verse boundary
(text `"vtext"`): the extracted paragraph `"altvtext"` includes the
text of a direct child that is not a variant-reading element, because
the verse dispatch precedes the inside-note check. -/
theorem claim_C8_counterexample :
    _handle_child_element noteEx [1001001] false (some 1001001) false false =
      .ok ("altvtext", false, some 1001001)
    ∧ "altvtext" = "alt" ++ "vtext" :=
  ⟨rfl, rfl⟩

/-- C8 amended: inside a footnote processed outside suppression, a
variant-reading child contributes its text; a direct child that is
neither a variant-reading nor a verse-boundary element contributes
nothing; verse-boundary children escape the inside-note mark and are
processed by the ordinary verse dispatch; and the footnote itself
concatenates its children's contributions with the inside-note mark
set. -/
theorem claim_C8_amended_note_suppression
    (verse_ids : List Nat) (cur : Option Nat) (incl : Bool) :
    (∀ rdgE : Element, rdgE.tagOf = "rdg" →
      _handle_child_element rdgE verse_ids false cur incl true =
        .ok (_get_element_text rdgE, false, cur))
    ∧ (∀ e : Element, e.tagOf ≠ "rdg" → e.tagOf ≠ "verse" →
      _handle_child_element e verse_ids false cur incl true =
        .ok ("", false, cur))
    ∧ (∀ verseE : Element, verseE.tagOf = "verse" →
      _handle_child_element verseE verse_ids false cur incl true =
        _handle_verse_tag verseE verse_ids false cur incl)
    ∧ (∀ (attrs : List (String × String)) (txt tl : Option String)
        (children : List Element) (p : String) (s : Bool) (c : Option Nat),
      _handle_grandchildren children verse_ids false cur incl true cur =
        .ok (p, s, c) →
      _handle_child_element (.mk "note" attrs txt children tl) verse_ids
        false cur incl false = .ok (clean_paragraph p, s, c)) := by
  refine ⟨?_, ?_, ?_, ?_⟩
  · intro rdgE hr
    cases rdgE with
    | mk t a x cs tl =>
      simp only [Element.tagOf] at hr
      subst hr
      unfold _handle_child_element
      simp
  · intro e hr hv
    cases e with
    | mk t a x cs tl =>
      simp only [Element.tagOf] at hr hv
      have hrb : (t == "rdg") = false := beq_eq_false_iff_ne.mpr hr
      have hvb : (t == "verse") = false := beq_eq_false_iff_ne.mpr hv
      unfold _handle_child_element
      simp [hrb, hvb]
  · intro verseE hv
    cases verseE with
    | mk t a x cs tl =>
      simp only [Element.tagOf] at hv
      subst hv
      unfold _handle_child_element
      simp
  · intro attrs txt tl children p s c hgc
    unfold _handle_child_element
    simp [hgc, String.empty_append]

/-- C8 amended witness: the parts of the amended statement applied at
the concrete footnote `noteEx` and its children. -/
theorem claim_C8_amended_witness :
    _handle_child_element rdgEx [1001001] false (some 1001001) false true =
      .ok (_get_element_text rdgEx, false, some 1001001)
    ∧ _handle_child_element (wEl "hidden") [1001001] false (some 1001001)
        false true = .ok ("", false, some 1001001)
    ∧ _handle_child_element (verseEl "Gen.1.1" (some "vtext") none)
        [1001001] false (some 1001001) false true =
      _handle_verse_tag (verseEl "Gen.1.1" (some "vtext") none)
        [1001001] false (some 1001001) false
    ∧ _handle_child_element noteEx [1001001] false (some 1001001) false
        false = .ok (clean_paragraph "altvtext", false, some 1001001) :=
  ⟨(claim_C8_amended_note_suppression [1001001] (some 1001001) false).1
      rdgEx rfl,
   (claim_C8_amended_note_suppression [1001001] (some 1001001) false).2.1
      (wEl "hidden") (by decide) (by decide),
   (claim_C8_amended_note_suppression [1001001] (some 1001001) false).2.2.1
      (verseEl "Gen.1.1" (some "vtext") none) rfl,
   (claim_C8_amended_note_suppression [1001001] (some 1001001) false).2.2.2
      [] (some "IGNORED") none [rdgEx, verseEl "Gen.1.1" (some "vtext") none]
      "altvtext" false (some 1001001) rfl⟩

/-- C4 counterexample: in a document whose Genesis division carries no
title element, both title accessors raise `AttributeError` (reading
`.text`, resp. calling `.get`, on the `None` that `tree.find`
returned) instead of returning the empty string. -/
theorem claim_C4_counterexample :
    _get_book_title_element titleTree0 1 = none
    ∧ get_book_title titleTree0 1 = .error .attributeError
    ∧ get_short_book_title titleTree0 1 = .error .attributeError
    ∧ (Except.error Err.attributeError : Except Err String) ≠ .ok "" :=
  ⟨rfl, rfl, rfl, by simp⟩

/-- C4 amended: the accessors return the empty string when the title
element is present but its text (resp. its `short` attribute) is
absent; when the title element itself is absent they raise
`AttributeError` instead. -/
theorem claim_C4_amended_title_absent
    (tree : Element) (book : Nat) :
    (∀ e : Element, _get_book_title_element tree book = some e →
      e.textOf = none → get_book_title tree book = .ok "")
    ∧ (∀ e : Element, _get_book_title_element tree book = some e →
      e.attrValue "short" = none → get_short_book_title tree book = .ok "")
    ∧ (_get_book_title_element tree book = none →
      get_book_title tree book = .error .attributeError
      ∧ get_short_book_title tree book = .error .attributeError) := by
  refine ⟨?_, ?_, ?_⟩
  · intro e hfind htxt
    unfold get_book_title
    simp [hfind, htxt]
  · intro e hfind hattr
    unfold get_short_book_title
    simp [hfind, Element.attrGetD, hattr]
  · intro hfind
    constructor
    · unfold get_book_title
      simp [hfind]
    · unfold get_short_book_title
      simp [hfind]

/-- C4 amended witness: the empty-string cases at a concrete document
whose title element carries neither text nor a `short` attribute, and
the error case at a concrete document with no title element. -/
theorem claim_C4_amended_witness :
    get_book_title titleTree1 1 = .ok ""
    ∧ get_short_book_title titleTree1 1 = .ok ""
    ∧ (get_book_title titleTree0 1 = .error .attributeError
      ∧ get_short_book_title titleTree0 1 = .error .attributeError) :=
  ⟨(claim_C4_amended_title_absent titleTree1 1).1
      (.mk "title" [] none [] none) rfl rfl,
   (claim_C4_amended_title_absent titleTree1 1).2.1
      (.mk "title" [] none [] none) rfl rfl,
   (claim_C4_amended_title_absent titleTree0 1).2.2 rfl⟩

/-- C2 counterexample: requesting a verse of book 67 (Baruch, which has
no entry in the book-id table) does not fail with the book table's
error: the dictionary lookup silently yields no code, the document
search is still performed with the composite id `"None.1.1"`, finds no
paragraph element, and the call fails with a `TypeError` while
iterating the absent element — not with `InvalidBookError`. -/
theorem claim_C2_counterexample :
    BOOK_IDS_get 67 = none
    ∧ composite_osis_id (get_verse_id 67 1 1) = "None" ++ "." ++ "1"
        ++ "." ++ "1"
    ∧ _get_paragraphsF 1 emptyTree [get_verse_id 67 1 1] true =
        some (.error .typeError)
    ∧ Err.typeError ≠ Err.invalidBook :=
  ⟨rfl, rfl, rfl, by decide⟩

/-- C2 amended: when the first remaining requested verse's book has no
entry in the book-id table, no error is raised by the table lookup (it
yields no code, formatted into the composite id as `"None"`); the
document search is still attempted and, finding no paragraph element,
the extraction fails with a `TypeError` when it iterates the absent
element. -/
theorem claim_C2_amended_missing_book
    (tree : Element) (v : Nat) (rest : List Nat) (incl : Bool) (fuel : Nat)
    (hbook : BOOK_IDS_get (get_book_chapter_verse v).1 = none)
    (hfind : findVerseParent tree (composite_osis_id v) = none) :
    composite_osis_id v = "None" ++ "."
        ++ toString (get_book_chapter_verse v).2.1 ++ "."
        ++ toString (get_book_chapter_verse v).2.2
    ∧ _get_paragraphsF (fuel + 1) tree (v :: rest) incl =
      some (.error .typeError) := by
  constructor
  · unfold composite_osis_id
    rw [hbook]
    rfl
  · unfold _get_paragraphsF
    simp [hfind, _get_paragraph_from_element]

/-- C2 amended witness: the hypotheses hold for book 67 and the empty
document. -/
theorem claim_C2_amended_witness :
    composite_osis_id (get_verse_id 67 1 1) = "None" ++ "."
        ++ toString (get_book_chapter_verse (get_verse_id 67 1 1)).2.1 ++ "."
        ++ toString (get_book_chapter_verse (get_verse_id 67 1 1)).2.2
    ∧ _get_paragraphsF (0 + 1) emptyTree [get_verse_id 67 1 1] true =
      some (.error .typeError) :=
  claim_C2_amended_missing_book emptyTree (get_verse_id 67 1 1) [] true 0
    rfl rfl

/-- C3 counterexample: Genesis is present in the book-id table, but in
a document containing no boundary for `Gen.1.1` the extraction of the
validly-decoding requested id 1001001 does not contribute empty text:
it fails with a `TypeError` (iterating the `None` that the paragraph
lookup returned). -/
theorem claim_C3_counterexample :
    BOOK_IDS_get 1 = some "Gen"
    ∧ findVerseParent emptyTree (composite_osis_id (get_verse_id 1 1 1))
        = none
    ∧ _get_paragraphsF 1 emptyTree [get_verse_id 1 1 1] true =
        some (.error .typeError)
    ∧ (some (Except.error Err.typeError) : Option (Except Err PassageResult))
        ≠ some (.ok []) :=
  ⟨rfl, rfl, rfl, by simp⟩

/-- C3 amended: when no verse-boundary element matching the first
remaining requested id exists in the document, the paragraph-element
lookup yields nothing and the extraction raises a `TypeError` while
iterating the absent element, rather than contributing empty text. -/
theorem claim_C3_amended_missing_verse_raises
    (tree : Element) (v : Nat) (rest : List Nat) (incl : Bool) (fuel : Nat)
    (hfind : findVerseParent tree (composite_osis_id v) = none) :
    _get_paragraphsF (fuel + 1) tree (v :: rest) incl =
      some (.error .typeError) := by
  unfold _get_paragraphsF
  simp [hfind, _get_paragraph_from_element]

/-- C3 amended witness: the hypothesis holds for `Gen.1.1` and the
empty document. -/
theorem claim_C3_amended_witness :
    _get_paragraphsF (0 + 1) emptyTree [get_verse_id 1 1 1] false =
      some (.error .typeError) :=
  claim_C3_amended_missing_verse_raises emptyTree (get_verse_id 1 1 1) []
    false 0 rfl

/-- C9: for every non-empty `verse_ids` list,
`get_scripture_passage_text` sorts the caller's list in place: the list
the caller holds after the call is the ascending sort of the list it
passed in — sorted even when the input was not, and a permutation of
the input.  (In the embedding the post-call state of the caller's list
is the first component of the result; all other state the source
touches is the memoization caches, which are semantically the
identity.) -/
theorem claim_C9_sorts_callers_list (tree : Element) (verse_ids : List Nat)
    (incl : Bool) (h : verse_ids ≠ []) :
    (get_scripture_passage_text tree verse_ids incl).1 =
      verse_ids.insertionSort (fun a b => a ≤ b)
    ∧ List.Sorted (· ≤ ·) (get_scripture_passage_text tree verse_ids incl).1
    ∧ (get_scripture_passage_text tree verse_ids incl).1.Perm verse_ids := by
  have hne : verse_ids.isEmpty = false := by
    simp [List.isEmpty_iff, h]
  have h1 : (get_scripture_passage_text tree verse_ids incl).1 =
      verse_ids.insertionSort (fun a b => a ≤ b) := by
    unfold get_scripture_passage_text
    rw [hne]
    simp
  refine ⟨h1, ?_, ?_⟩
  · rw [h1]
    exact List.sorted_insertionSort _ verse_ids
  · rw [h1]
    exact List.perm_insertionSort _ verse_ids

/-- C9 witness: a concrete unsorted two-element list is sorted in place
by the call. -/
theorem claim_C9_witness :
    (get_scripture_passage_text emptyTree [2001001, 1001001] true).1 =
      ([2001001, 1001001] : List Nat).insertionSort (fun a b => a ≤ b)
    ∧ List.Sorted (· ≤ ·)
        (get_scripture_passage_text emptyTree [2001001, 1001001] true).1
    ∧ (get_scripture_passage_text emptyTree
        [2001001, 1001001] true).1.Perm [2001001, 1001001] :=
  claim_C9_sorts_callers_list emptyTree [2001001, 1001001] true (by decide)

/-- Through `_handle_verse_tag` the current verse id stays a member of
the requested list once it is one: it is either returned unchanged or
replaced by a matched member of the list. -/
theorem hvt_preserves_mem (e : Element) (vids : List Nat) (skip : Bool)
    (c : Nat) (incl : Bool) (p : String) (s : Bool) (cur' : Option Nat)
    (hc : c ∈ vids)
    (h : _handle_verse_tag e vids skip (some c) incl = .ok (p, s, cur')) :
    ∃ c2, cur' = some c2 ∧ c2 ∈ vids := by
  simp only [_handle_verse_tag] at h
  split at h
  · simp only [Except.ok.injEq, Prod.mk.injEq] at h
    exact ⟨c, h.2.2.symm, hc⟩
  · split at h
    · split at h
      · exact absurd h (by simp)
      · split at h
        · split at h
          · next hmem =>
            simp only [Except.ok.injEq, Prod.mk.injEq] at h
            exact ⟨_, h.2.2.symm, hmem⟩
          · simp only [Except.ok.injEq, Prod.mk.injEq] at h
            exact ⟨c, h.2.2.symm, hc⟩
        · exact absurd h (by simp)
    · exact absurd h (by simp)

mutual

/-- Through `_handle_child_element` the current verse id stays a member
of the requested list once it is one. -/
theorem hce_preserves_mem : ∀ (e : Element) (vids : List Nat) (skip : Bool)
    (c : Nat) (incl inote : Bool) (p : String) (s : Bool) (cur' : Option Nat),
    c ∈ vids →
    _handle_child_element e vids skip (some c) incl inote = .ok (p, s, cur') →
    ∃ c2, cur' = some c2 ∧ c2 ∈ vids
  | .mk t attrs txt children tl, vids, skip, c, incl, inote, p, s, cur',
      hc, h => by
    simp only [_handle_child_element] at h
    split at h
    · exact hvt_preserves_mem _ vids skip c incl p s cur' hc h
    · split at h
      · simp only [Except.ok.injEq, Prod.mk.injEq] at h
        exact ⟨c, h.2.2.symm, hc⟩
      · split at h
        · simp only [Except.ok.injEq, Prod.mk.injEq] at h
          exact ⟨c, h.2.2.symm, hc⟩
        · split at h
          · simp only [Except.ok.injEq, Prod.mk.injEq] at h
            exact ⟨c, h.2.2.symm, hc⟩
          · split at h
            · simp only [Except.ok.injEq, Prod.mk.injEq] at h
              exact ⟨c, h.2.2.symm, hc⟩
            · split at h
              · exact absurd h (by simp)
              · next cp skip2 nc heq =>
                simp only [Except.ok.injEq, Prod.mk.injEq] at h
                obtain ⟨-, -, h3⟩ := h
                subst h3
                exact hgc_preserves_mem children vids skip c incl
                  (t == "note") (some c) cp skip2 nc hc ⟨c, rfl, hc⟩ heq

/-- Through the grandchild loop the current verse id stays a member of
the requested list once it is one, provided the running
`new_current_verse_id` accumulator is one as well. -/
theorem hgc_preserves_mem : ∀ (es : List Element) (vids : List Nat)
    (skip : Bool) (c : Nat) (incl inote : Bool) (acc : Option Nat)
    (p : String) (s : Bool) (cur' : Option Nat),
    c ∈ vids →
    (∃ a, acc = some a ∧ a ∈ vids) →
    _handle_grandchildren es vids skip (some c) incl inote acc =
      .ok (p, s, cur') →
    ∃ c2, cur' = some c2 ∧ c2 ∈ vids
  | [], vids, skip, c, incl, inote, acc, p, s, cur', hc, hacc, h => by
    simp only [_handle_grandchildren] at h
    simp only [Except.ok.injEq, Prod.mk.injEq] at h
    obtain ⟨a, ha, hma⟩ := hacc
    exact ⟨a, h.2.2 ▸ ha, hma⟩
  | g :: rest, vids, skip, c, incl, inote, acc, p, s, cur', hc, hacc, h => by
    simp only [_handle_grandchildren] at h
    split at h
    · exact absurd h (by simp)
    · next gp skip2 cur2 heq1 =>
      split at h
      · exact absurd h (by simp)
      · next restp skip3 cur3 heq2 =>
        simp only [Except.ok.injEq, Prod.mk.injEq] at h
        obtain ⟨-, -, h3⟩ := h
        subst h3
        have hcur2 := hce_preserves_mem g vids skip c incl inote gp skip2
          cur2 hc heq1
        exact hgc_preserves_mem rest vids skip2 c incl inote cur2 restp
          skip3 cur3 hc hcur2 heq2

end

/-- Through the paragraph loop the current verse id stays a member of
the requested list once it is one. -/
theorem ploop_preserves_mem : ∀ (es : List Element) (vids : List Nat)
    (skip : Bool) (c : Nat) (incl : Bool) (pacc p : String)
    (cur' : Option Nat),
    c ∈ vids →
    _paragraph_loop es vids skip (some c) incl pacc = .ok (p, cur') →
    ∃ c2, cur' = some c2 ∧ c2 ∈ vids := by
  intro es
  induction es with
  | nil =>
    intro vids skip c incl pacc p cur' hc h
    simp only [_paragraph_loop] at h
    simp only [Except.ok.injEq, Prod.mk.injEq] at h
    exact ⟨c, h.2.symm, hc⟩
  | cons e rest ih =>
    intro vids skip c incl pacc p cur' hc h
    simp only [_paragraph_loop] at h
    split at h
    · exact absurd h (by simp)
    · next cp skip2 cur2 heq =>
      obtain ⟨c2, hc2, hm2⟩ := hce_preserves_mem e vids skip c incl false cp
        skip2 cur2 hc heq
      subst hc2
      exact ih vids skip2 c2 incl (join_contribution pacc cp) p cur' hm2 h

/-- Through `_get_paragraph_from_element` the returned current verse id
is a member of the requested list whenever the incoming one is. -/
theorem pfe_preserves_mem (pe : Option Element) (vids : List Nat) (c : Nat)
    (incl : Bool) (ps : List String) (cur' : Option Nat)
    (hc : c ∈ vids)
    (h : _get_paragraph_from_element pe vids c incl = .ok (ps, cur')) :
    ∃ c2, cur' = some c2 ∧ c2 ∈ vids := by
  cases pe with
  | none => exact absurd h (by simp [_get_paragraph_from_element])
  | some e =>
    simp only [_get_paragraph_from_element] at h
    split at h
    · exact absurd h (by simp)
    · next paragraph nc heq =>
      simp only [Except.ok.injEq, Prod.mk.injEq] at h
      obtain ⟨-, h2⟩ := h
      subst h2
      exact ploop_preserves_mem e.childrenOf vids false c incl "" paragraph
        nc hc heq

/-- With fuel at least the length of the requested list,
`_get_paragraphsF` never exhausts its fuel: every recursive step
consumes at least one leading requested id, so the suffix passed down
is strictly shorter. -/
theorem gpF_isSome : ∀ (fuel : Nat) (tree : Element) (vids : List Nat)
    (incl : Bool), vids ≠ [] → vids.length ≤ fuel →
    (_get_paragraphsF fuel tree vids incl).isSome := by
  intro fuel
  induction fuel with
  | zero =>
    intro tree vids incl hne hlen
    cases vids with
    | nil => exact absurd rfl hne
    | cons v rest => simp at hlen
  | succ fuel ih =>
    intro tree vids incl hne hlen
    cases vids with
    | nil => exact absurd rfl hne
    | cons v rest =>
      simp only [_get_paragraphsF]
      split
      · simp
      · split
        · simp
        · split
          · simp
          · next idx hidx =>
            split
            · next heq =>
              exfalso
              split at heq
              · next hlt =>
                have hlen2 : ((v :: rest).drop (idx + 1)).length ≤ fuel := by
                  rw [List.length_drop]
                  omega
                have hne2 : (v :: rest).drop (idx + 1) ≠ [] := by
                  have hpos : 0 < ((v :: rest).drop (idx + 1)).length := by
                    rw [List.length_drop]
                    omega
                  exact List.length_pos.mp hpos
                have hsome := ih tree ((v :: rest).drop (idx + 1)) incl hne2
                  hlen2
                rw [heq] at hsome
                simp at hsome
              · simp at heq
            · simp
            · simp

/-- C10: `_get_paragraphs` terminates for every non-empty requested
tuple: with fuel equal to (or above) the number of requested ids the
fuelled embedding never runs out, because the current verse id that
`_get_paragraph_from_element` returns is always a member of the
requested list (either the initial first element or an id matched by
membership), so its index is defined and every recursive call receives
a strictly shorter, still non-empty suffix. -/
theorem claim_C10_recursion_terminates (tree : Element) (vids : List Nat)
    (incl : Bool) (fuel : Nat) (hne : vids ≠ [])
    (hfuel : vids.length ≤ fuel) :
    (_get_paragraphsF fuel tree vids incl).isSome
    ∧ (∀ (pe : Option Element) (c : Nat) (ps : List String)
        (cur' : Option Nat), c ∈ vids →
      _get_paragraph_from_element pe vids c incl = .ok (ps, cur') →
      ∃ c2, cur' = some c2 ∧ c2 ∈ vids) :=
  ⟨gpF_isSome fuel tree vids incl hne hfuel,
   fun pe c ps cur' hc h => pfe_preserves_mem pe vids c incl ps cur' hc h⟩

/-- C10 witness: the hypotheses hold for a singleton requested list on
a concrete document. -/
theorem claim_C10_witness :
    (_get_paragraphsF 1 emptyTree [1001001] true).isSome
    ∧ (∀ (pe : Option Element) (c : Nat) (ps : List String)
        (cur' : Option Nat), c ∈ [1001001] →
      _get_paragraph_from_element pe [1001001] c true = .ok (ps, cur') →
      ∃ c2, cur' = some c2 ∧ c2 ∈ [1001001]) :=
  claim_C10_recursion_terminates emptyTree [1001001] true 1 (by decide)
    (by decide)
